import Mathlib

/-!
Verification development for the `video-api` repository: a shallow embedding of
the job pipeline, the external-call wrappers and their fallback logic, together
with theorems settling the specification claims.

Conventions of the embedding:
* Python strings are Lean `String`s; character-level work happens on `List Char`.
* Fallible library calls (network, subprocess, filesystem) are modelled by
  oracle parameters recording the outcome the environment produced.
* JSON values are modelled by the inductive `JVal`; `json.loads` is an oracle
  (a function `String → Option JVal`) because its behaviour belongs to the
  Python standard library, not to this repository.
* Python exceptions are `Except String` values; a function that can let an
  exception escape returns `Except`.
-/

namespace VideoApi

/-- Whitespace characters matched by the regex class for spaces restricted to
ASCII, which covers all inputs this repository produces. -/
def isWsChar (c : Char) : Bool :=
  c = ' ' || c = '\t' || c = '\n' || c = '\r' || c = '\x0b' || c = '\x0c'

/-- Word characters matched by the regex word class, restricted to ASCII. -/
def isWordChar (c : Char) : Bool :=
  c.isAlphanum || c = '_'

/-- Split `s` around the leftmost occurrence of `pat`: returns the part before
the occurrence and the part after it. `none` when `pat` does not occur. -/
def findSplit (pat : List Char) : List Char → Option (List Char × List Char)
  | [] => if pat.isEmpty then some ([], []) else none
  | c :: rest =>
    if pat.isPrefixOf (c :: rest) then
      some ([], (c :: rest).drop pat.length)
    else
      match findSplit pat rest with
      | some (pre, post) => some (c :: pre, post)
      | none => none

/-- Boolean substring test on character lists. -/
def containsSubL (pat s : List Char) : Bool :=
  (findSplit pat s).isSome

/-- Boolean substring test on strings (the Python `in` operator on `str`). -/
def containsSubStr (pat s : String) : Bool :=
  containsSubL pat.data s.data

/-- Contents of the first fenced block opened by `openPat` and closed by a
newline followed by three backticks, or `none`.  This is the lazy-group search
the source performs with a regular expression: leftmost opening delimiter,
then the earliest closing delimiter after it. -/
def searchFenced (openPat : List Char) (s : List Char) : Option (List Char) :=
  match findSplit openPat s with
  | none => none
  | some (_, rest) =>
    match findSplit "\n```".data rest with
    | none => none
    | some (mid, _) => some mid

/-- Payload extraction shared by the script generator (label `json`) and the
code generator (label `python`): first try the language-labelled fenced block,
then the label-free fenced block, otherwise keep the raw text. -/
def extractPayload (lbl : String) (t : String) : String :=
  match searchFenced ("```" ++ lbl ++ "\n").data t.data with
  | some g => String.mk g
  | none =>
    match searchFenced "```\n".data t.data with
    | some g => String.mk g
    | none => t

/-- Modelled from the spec words only (for comparison with `extractPayload`):
the extraction order the specification sentence describes, attempting the
literal label-free delimiter form before the language-labelled form. -/
def extractPayloadSpecWords (lbl : String) (t : String) : String :=
  match searchFenced "```\n".data t.data with
  | some g => String.mk g
  | none =>
    match searchFenced ("```" ++ lbl ++ "\n").data t.data with
    | some g => String.mk g
    | none => t

theorem findSplit_nil (pat : List Char) :
    findSplit pat [] = if pat.isEmpty then some ([], []) else none := rfl

theorem findSplit_cons (pat : List Char) (c : Char) (rest : List Char) :
    findSplit pat (c :: rest) =
      if pat.isPrefixOf (c :: rest) then
        some ([], (c :: rest).drop pat.length)
      else
        match findSplit pat rest with
        | some (pre, post) => some (c :: pre, post)
        | none => none := rfl

/-- A prefix of a pattern occurs wherever the pattern occurs: if the shorter
pattern is absent, so is the longer one. -/
theorem findSplit_append_eq_none {p q s : List Char}
    (h : findSplit p s = none) : findSplit (p ++ q) s = none := by
  induction s with
  | nil =>
    rw [findSplit_nil] at h ⊢
    by_cases hp : p.isEmpty
    · simp [hp] at h
    · have : (p ++ q).isEmpty = false := by
        cases p with
        | nil => simp [List.isEmpty] at hp
        | cons a l => simp [List.isEmpty]
      simp [this]
  | cons c rest ih =>
    rw [findSplit_cons] at h ⊢
    by_cases hpre : p.isPrefixOf (c :: rest) = true
    · rw [if_pos hpre] at h
      exact absurd h (by simp)
    · have hpre2 : (p ++ q).isPrefixOf (c :: rest) = false := by
        cases hq : (p ++ q).isPrefixOf (c :: rest) with
        | false => rfl
        | true =>
          have hsub : p <+: (c :: rest) := by
            have := List.isPrefixOf_iff_prefix.mp hq
            exact (List.prefix_append p q).trans this
          exact absurd (List.isPrefixOf_iff_prefix.mpr hsub) hpre
      rw [if_neg hpre] at h
      have hrest : findSplit p rest = none := by
        rcases hfs : findSplit p rest with _ | ⟨pre, post⟩
        · rfl
        · rw [hfs] at h
          exact absurd h (by simp)
      rw [hpre2, if_neg (by simp), ih hrest]

theorem searchFenced_eq_none_of_open {op s : List Char}
    (h : findSplit op s = none) : searchFenced op s = none := by
  unfold searchFenced
  rw [h]

/-- Claim C7 counterexample input: a label-free fenced block followed by a
language-labelled fenced block. -/
def c7text : String := "```\nAAA\n```json\nBBB\n```"

/-- Claim C7 is false as stated: on a response whose first fenced block is
label-free and whose second is language-labelled, the extraction returns the
contents of the second (labelled) block, not the contents of the first block
that the label-free-first rule of the specification would isolate. -/
theorem extract_payload_order_counterexample :
    extractPayload "json" c7text = "BBB" ∧
    extractPayloadSpecWords "json" c7text = "AAA" ∧
    extractPayload "json" c7text ≠ extractPayloadSpecWords "json" c7text := by
  refine ⟨rfl, rfl, by decide⟩

/-- Claim C7 (amended): the payload is extracted from the first
language-labelled fenced block when one is present, otherwise from the first
label-free fenced block; a response containing no block delimiters at all is
parsed as-is. -/
theorem extract_payload_amended (lbl t : String) :
    (containsSubStr "```" t = false → extractPayload lbl t = t) ∧
    (∀ g, searchFenced ("```" ++ lbl ++ "\n").data t.data = some g →
      extractPayload lbl t = String.mk g) ∧
    (searchFenced ("```" ++ lbl ++ "\n").data t.data = none →
      (∀ g, searchFenced "```\n".data t.data = some g →
        extractPayload lbl t = String.mk g) ∧
      (searchFenced "```\n".data t.data = none → extractPayload lbl t = t)) := by
  refine ⟨?_, ?_, ?_⟩
  · intro hnf
    have h0 : findSplit "```".data t.data = none := by
      unfold containsSubStr containsSubL at hnf
      exact Option.not_isSome_iff_eq_none.mp (by simp [hnf])
    have hlab : findSplit ("```" ++ lbl ++ "\n").data t.data = none := by
      have hd : ("```" ++ lbl ++ "\n").data
          = "```".data ++ (lbl.data ++ "\n".data) := by
        rw [String.data_append, String.data_append, List.append_assoc]
      rw [hd]
      exact findSplit_append_eq_none h0
    have hplain : findSplit "```\n".data t.data = none := by
      have hd : ("```\n" : String).data = "```".data ++ "\n".data := rfl
      rw [hd]
      exact findSplit_append_eq_none h0
    unfold extractPayload
    rw [searchFenced_eq_none_of_open hlab, searchFenced_eq_none_of_open hplain]
  · intro g hg
    unfold extractPayload
    rw [hg]
  · intro hlab
    constructor
    · intro g hg
      unfold extractPayload
      rw [hlab, hg]
    · intro hplain
      unfold extractPayload
      rw [hlab, hplain]

/-- Witness for the amended claim C7 at a concrete delimiter-free response. -/
theorem extract_payload_amended_witness :
    extractPayload "json" "plain body" = "plain body" :=
  (extract_payload_amended "json" "plain body").1 (by decide)

/-- Drop a greedy (possibly empty) run of whitespace. -/
def skipWs (s : List Char) : List Char :=
  s.drop (s.takeWhile isWsChar).length

-- The five stages below spell out, position by position, the regular
-- expression the source uses to recognize a class declaration: the keyword,
-- one or more spaces, a captured run of word characters, optional spaces, an
-- opening parenthesis, optional spaces, the base-scene identifier, optional
-- spaces and a closing parenthesis.  Greedy runs need no backtracking because
-- word characters, whitespace and the parentheses are pairwise disjoint
-- character classes.

/-- Stage 5 of the pattern: optional spaces, then the closing parenthesis. -/
def matchClose (name s8 : List Char) : Option (List Char) :=
  match s8 with
  | ')' :: _ => some name
  | _ => none

/-- Stage 4: optional spaces, the base-scene identifier, then stage 5. -/
def matchSceneWord (name s6 : List Char) : Option (List Char) :=
  if "Scene".data.isPrefixOf s6 then
    matchClose name (skipWs (s6.drop 5))
  else none

/-- Stage 3: optional spaces, the opening parenthesis, then stage 4. -/
def matchParen (name s4 : List Char) : Option (List Char) :=
  match s4 with
  | '(' :: s5 => matchSceneWord name (skipWs s5)
  | _ => none

/-- Stage 2: a non-empty greedy run of word characters (the captured class
name), then stage 3. -/
def matchName (s2 : List Char) : Option (List Char) :=
  if (s2.takeWhile isWordChar).isEmpty then none
  else
    matchParen (s2.takeWhile isWordChar)
      (skipWs (s2.drop (s2.takeWhile isWordChar).length))

/-- Stage 1: one or more whitespace characters after the keyword, then
stage 2. -/
def matchAfterKeyword (s1 : List Char) : Option (List Char) :=
  if (s1.takeWhile isWsChar).isEmpty then none
  else matchName (s1.drop (s1.takeWhile isWsChar).length)

def matchClassAt (s : List Char) : Option (List Char) :=
  if "class".data.isPrefixOf s then matchAfterKeyword (s.drop 5)
  else none

/-- Leftmost match of the class-declaration pattern over all positions. -/
def searchClassAux : List Char → Option (List Char)
  | [] => none
  | c :: rest =>
    match matchClassAt (c :: rest) with
    | some n => some n
    | none => searchClassAux rest

/-- `extract_class_name` of the renderer (and the identical search performed by
the code generator): the captured class name of the first match, if any. -/
def extract_class_name (code : String) : Option String :=
  (searchClassAux code.data).map String.mk

theorem searchClassAux_cons (c : Char) (rest : List Char) :
    searchClassAux (c :: rest) =
      match matchClassAt (c :: rest) with
      | some n => some n
      | none => searchClassAux rest := rfl

theorem searchClassAux_skip (c : Char) (rest : List Char)
    (h : matchClassAt (c :: rest) = none) :
    searchClassAux (c :: rest) = searchClassAux rest := by
  rw [searchClassAux_cons, h]

/-- Replacement of every non-overlapping occurrence of a pattern, scanning left
to right, with explicit fuel; the fuel never runs out when it starts at the
length of the subject because every step consumes at least one character. -/
def replaceAllFuel (pat sub : List Char) : Nat → List Char → List Char
  | _, [] => []
  | 0, s => s
  | fuel + 1, c :: rest =>
    if pat.isPrefixOf (c :: rest) && !pat.isEmpty then
      sub ++ replaceAllFuel pat sub fuel ((c :: rest).drop pat.length)
    else
      c :: replaceAllFuel pat sub fuel rest

/-- The replace method of Python strings (for the non-empty patterns this
repository uses). -/
def pyReplace (s old new : String) : String :=
  String.mk (replaceAllFuel old.data new.data s.data.length s.data)

/-- Every character of the decimal digit string of a natural number is a
digit. -/
theorem digitChar_isDigit (m : Nat) (h : m < 10) :
    (Nat.digitChar m).isDigit = true := by
  interval_cases m <;> decide

theorem toDigitsCore_all_digits (fuel n : Nat) (ds : List Char)
    (hds : ∀ c ∈ ds, c.isDigit = true) :
    ∀ c ∈ Nat.toDigitsCore 10 fuel n ds, c.isDigit = true := by
  induction fuel generalizing n ds with
  | zero =>
    intro c hc
    exact hds c hc
  | succ fuel ih =>
    intro c hc
    simp only [Nat.toDigitsCore] at hc
    by_cases hz : n / 10 = 0
    · rw [if_pos hz] at hc
      rcases List.mem_cons.mp hc with hc | hc
      · rw [hc]
        exact digitChar_isDigit _ (Nat.mod_lt _ (by norm_num))
      · exact hds c hc
    · rw [if_neg hz] at hc
      refine ih (n / 10) (Nat.digitChar (n % 10) :: ds) ?_ c hc
      intro d hd
      rcases List.mem_cons.mp hd with hd | hd
      · rw [hd]
        exact digitChar_isDigit _ (Nat.mod_lt _ (by norm_num))
      · exact hds d hd

theorem natRepr_all_digits (n : Nat) :
    ∀ c ∈ (toString n).data, c.isDigit = true := by
  intro c hc
  exact toDigitsCore_all_digits (n + 1) n [] (by simp) c hc

theorem isWordChar_of_isDigit {c : Char} (h : c.isDigit = true) :
    isWordChar c = true := by
  unfold isWordChar
  unfold Char.isAlphanum
  rw [h]
  simp

/-- The fixed title-card fallback program substituted when no class
declaration is recognized in the generated code (scene numbering embeds
`index + 1`). -/
def fallbackProgram (index : Nat) : String :=
  "from manim import *\n\nclass Scene" ++ toString (index + 1) ++
  "(Scene):\n    def construct(self):\n        # Fallback implementation\n        title = Text(\"Scene " ++
  toString (index + 1) ++
  "\")\n        self.play(Write(title))\n        self.wait(2)\n        self.play(FadeOut(title))\n"

/-- Post-processing of generated code: keep the code when its primary class
name already contains the scene tag, otherwise rewrite every exact occurrence
of the recognized declaration to the per-scene name; when no declaration is
recognized, substitute the fixed title-card fallback program. -/
def ensure_proper_class_name (code : String) (index : Nat) : String :=
  match extract_class_name code with
  | some cur =>
    if containsSubStr ("Scene" ++ toString (index + 1)) cur then code
    else
      pyReplace code ("class " ++ cur ++ "(Scene)")
        ("class Scene" ++ toString (index + 1) ++ "(Scene)")
  | none => fallbackProgram index

theorem takeWhile_append_all {p : Char → Bool} {l l' : List Char}
    (h : ∀ c ∈ l, p c = true) :
    List.takeWhile p (l ++ l') = l ++ List.takeWhile p l' := by
  induction l with
  | nil => simp
  | cons c rest ih =>
    have hc : p c = true := h c (by simp)
    simp only [List.cons_append, List.takeWhile_cons, hc, if_pos]
    rw [ih (fun d hd => h d (by simp [hd]))]

/-- The pattern matcher succeeds on the class declaration of the fallback
program shape: the base-scene word followed by a run of word characters and
the parenthesized base-scene identifier. -/
theorem matchClassAt_scene_digits (digits tail : List Char)
    (hd : ∀ c ∈ digits, isWordChar c = true) :
    matchClassAt ('c' :: 'l' :: 'a' :: 's' :: 's' :: ' ' :: 'S' :: 'c' :: 'e' :: 'n' :: 'e' ::
        (digits ++ '(' :: 'S' :: 'c' :: 'e' :: 'n' :: 'e' :: ')' :: tail))
      = some ('S' :: 'c' :: 'e' :: 'n' :: 'e' :: digits) := by
  have hname : List.takeWhile isWordChar
      ('S' :: 'c' :: 'e' :: 'n' :: 'e' ::
        (digits ++ '(' :: 'S' :: 'c' :: 'e' :: 'n' :: 'e' :: ')' :: tail))
      = 'S' :: 'c' :: 'e' :: 'n' :: 'e' :: digits := by
    show 'S' :: 'c' :: 'e' :: 'n' :: 'e' ::
        List.takeWhile isWordChar (digits ++ '(' :: 'S' :: 'c' :: 'e' :: 'n' :: 'e' :: ')' :: tail)
      = 'S' :: 'c' :: 'e' :: 'n' :: 'e' :: digits
    rw [takeWhile_append_all hd,
      show List.takeWhile isWordChar ('(' :: 'S' :: 'c' :: 'e' :: 'n' :: 'e' :: ')' :: tail) = []
        from rfl,
      List.append_nil]
  show matchName
      ('S' :: 'c' :: 'e' :: 'n' :: 'e' ::
        (digits ++ '(' :: 'S' :: 'c' :: 'e' :: 'n' :: 'e' :: ')' :: tail))
    = some ('S' :: 'c' :: 'e' :: 'n' :: 'e' :: digits)
  unfold matchName
  rw [hname, if_neg (by simp)]
  have hsplit : ('S' :: 'c' :: 'e' :: 'n' :: 'e' ::
        (digits ++ '(' :: 'S' :: 'c' :: 'e' :: 'n' :: 'e' :: ')' :: tail))
      = ('S' :: 'c' :: 'e' :: 'n' :: 'e' :: digits) ++
        ('(' :: 'S' :: 'c' :: 'e' :: 'n' :: 'e' :: ')' :: tail) := by
    simp
  rw [hsplit, List.drop_left]
  rfl

set_option maxHeartbeats 2000000 in
/-- Scanning the fallback-program shape: every position before the class
keyword fails the matcher definitionally, and the matcher succeeds at the
keyword. -/
theorem searchClassAux_fallback_shape (digits T : List Char)
    (hd : ∀ c ∈ digits, isWordChar c = true) :
    searchClassAux
      ('f' :: 'r' :: 'o' :: 'm' :: ' ' :: 'm' :: 'a' :: 'n' :: 'i' :: 'm' :: ' ' ::
       'i' :: 'm' :: 'p' :: 'o' :: 'r' :: 't' :: ' ' :: '*' :: '\n' :: '\n' ::
       'c' :: 'l' :: 'a' :: 's' :: 's' :: ' ' :: 'S' :: 'c' :: 'e' :: 'n' :: 'e' ::
       (digits ++ '(' :: 'S' :: 'c' :: 'e' :: 'n' :: 'e' :: ')' :: T))
      = some ('S' :: 'c' :: 'e' :: 'n' :: 'e' :: digits) := by
  rw [show searchClassAux
      ('f' :: 'r' :: 'o' :: 'm' :: ' ' :: 'm' :: 'a' :: 'n' :: 'i' :: 'm' :: ' ' ::
       'i' :: 'm' :: 'p' :: 'o' :: 'r' :: 't' :: ' ' :: '*' :: '\n' :: '\n' ::
       'c' :: 'l' :: 'a' :: 's' :: 's' :: ' ' :: 'S' :: 'c' :: 'e' :: 'n' :: 'e' ::
       (digits ++ '(' :: 'S' :: 'c' :: 'e' :: 'n' :: 'e' :: ')' :: T))
      = searchClassAux
      ('c' :: 'l' :: 'a' :: 's' :: 's' :: ' ' :: 'S' :: 'c' :: 'e' :: 'n' :: 'e' ::
       (digits ++ '(' :: 'S' :: 'c' :: 'e' :: 'n' :: 'e' :: ')' :: T)) from rfl]
  rw [searchClassAux_cons, matchClassAt_scene_digits digits T hd]

/-- The fallback program of every index carries an extractable class name that
embeds that index plus one. -/
theorem extract_class_name_fallbackProgram (i : Nat) :
    extract_class_name (fallbackProgram i) = some ("Scene" ++ toString (i + 1)) := by
  have hd : ∀ c ∈ (toString (i + 1)).data, isWordChar c = true := fun c hc =>
    isWordChar_of_isDigit (natRepr_all_digits _ c hc)
  have hdata : (fallbackProgram i).data
      = 'f' :: 'r' :: 'o' :: 'm' :: ' ' :: 'm' :: 'a' :: 'n' :: 'i' :: 'm' :: ' ' ::
        'i' :: 'm' :: 'p' :: 'o' :: 'r' :: 't' :: ' ' :: '*' :: '\n' :: '\n' ::
        'c' :: 'l' :: 'a' :: 's' :: 's' :: ' ' :: 'S' :: 'c' :: 'e' :: 'n' :: 'e' ::
        ((toString (i + 1)).data ++ '(' :: 'S' :: 'c' :: 'e' :: 'n' :: 'e' :: ')' ::
          ((":\n    def construct(self):\n        # Fallback implementation\n        title = Text(\"Scene " : String).data ++
            ((toString (i + 1)).data ++
              ("\")\n        self.play(Write(title))\n        self.wait(2)\n        self.play(FadeOut(title))\n" : String).data))) := by
    unfold fallbackProgram
    simp only [String.data_append, List.append_assoc]
    rfl
  unfold extract_class_name
  rw [hdata, searchClassAux_fallback_shape _ _ hd]
  rfl

/-- JSON-like values, the shape `json.loads` can produce. -/
inductive JVal where
  | jnull
  | jbool (b : Bool)
  | jnum (n : Int)
  | jstr (s : String)
  | jarr (xs : List JVal)
  | jobj (fields : List (String × JVal))

/-- First binding of a key in an object field list (Python dictionaries carry
each key once, so first-match lookup models subscripting). -/
def getField (fields : List (String × JVal)) (k : String) : Option JVal :=
  match fields with
  | [] => none
  | (k', v) :: rest => if k' = k then some v else getField rest k

/-- The Python membership operator on a JSON-like container: key membership on
objects, element equality on arrays, substring on strings, and a type error on
non-containers. -/
def pyContains (container : JVal) (key : String) : Except String Bool :=
  match container with
  | .jobj fields => .ok (getField fields key).isSome
  | .jarr xs => .ok (xs.any fun x => match x with | .jstr s => s = key | _ => false)
  | .jstr s => .ok (containsSubStr key s)
  | _ => .error "TypeError: argument is not iterable"

/-- Python subscripting of a JSON-like value by a string key. -/
def pyIndex (v : JVal) (k : String) : Except String JVal :=
  match v with
  | .jobj fields =>
    match getField fields k with
    | some x => .ok x
    | none => .error ("KeyError: " ++ k)
  | .jstr _ => .error "TypeError: string indices must be integers"
  | .jarr _ => .error "TypeError: list indices must be integers"
  | _ => .error "TypeError: value is not subscriptable"

/-- The membership checks the validator runs over one scene, in source order;
a type error raised by the membership operator propagates. -/
def allKeysIn (scene : JVal) : List String → Except String Bool
  | [] => .ok true
  | k :: ks =>
    match pyContains scene k with
    | .error e => .error e
    | .ok false => .ok false
    | .ok true => allKeysIn scene ks

def sceneKeys : List String := ["startTime", "endTime", "narration", "visualDescription"]

def validateScenes : List JVal → Except String Bool
  | [] => .ok true
  | sc :: rest =>
    match allKeysIn sc sceneKeys with
    | .error e => .error e
    | .ok false => .ok false
    | .ok true => validateScenes rest

/-- Structural validation of a generated script: a dictionary carrying title,
description and scenes, the scenes being a non-empty list whose members each
contain the four per-scene keys. -/
def validate_script (script : JVal) : Except String Bool :=
  match script with
  | .jobj fields =>
    if ["title", "description", "scenes"].all (fun k => (getField fields k).isSome) then
      match getField fields "scenes" with
      | some (.jarr scenes) =>
        if scenes.length = 0 then .ok false
        else validateScenes scenes
      | some _ => .ok false
      | none => .ok false
    else .ok false
  | _ => .ok false

/-- The deterministic mock script built purely from the prompt text. -/
def generate_mock_script (prompt : String) : JVal :=
  .jobj
    [("title", .jstr ("Understanding " ++ prompt)),
     ("description", .jstr ("An educational video explaining " ++ prompt ++ " with visual animations.")),
     ("scenes", .jarr
       [.jobj
         [("startTime", .jstr "00:00"),
          ("endTime", .jstr "00:10"),
          ("narration", .jstr ("Welcome to this video about " ++ prompt ++ ". We\x27ll explore this concept with visual examples.")),
          ("visualDescription", .jstr "Show a title text with the prompt. Then animate it to move to the top of the screen. Create a circle in the center that pulses to draw attention.")],
        .jobj
         [("startTime", .jstr "00:10"),
          ("endTime", .jstr "00:25"),
          ("narration", .jstr ("Let\x27s start by understanding the basic principles of " ++ prompt ++ ". This concept is fundamental in mathematics.")),
          ("visualDescription", .jstr "Display a mathematical equation related to the topic. For example, if it\x27s about circles, show the equation of a circle (x-h)² + (y-k)² = r². Animate each part of the equation appearing one by one, highlighting each term as it\x27s mentioned.")],
        .jobj
         [("startTime", .jstr "00:25"),
          ("endTime", .jstr "00:40"),
          ("narration", .jstr ("Now, let\x27s see how " ++ prompt ++ " works in practice with a visual example.")),
          ("visualDescription", .jstr "Create a coordinate system. Plot a function or shape related to the topic. If it\x27s about the Pythagorean theorem, show a right triangle and label the sides a, b, and c. Then show a² + b² = c² with squares growing from each side of the triangle.")],
        .jobj
         [("startTime", .jstr "00:40"),
          ("endTime", .jstr "00:55"),
          ("narration", .jstr ("To summarize what we\x27ve learned about " ++ prompt ++ ", let\x27s review the key points.")),
          ("visualDescription", .jstr "Create a bulleted list with 3 key points about the topic. Have each point appear one by one with a small animation. End with a final animation that brings back the main equation or diagram from earlier, but now with additional annotations or highlighting.")]])]

/-- Outcome of the generative-text call for the script generator: credential
presence, the call result (`none` when the transport raised), and the JSON
parser of the standard library as an oracle. -/
structure GemOracle where
  hasKey : Bool
  call : Option String
  loads : String → Option JVal

/-- The script generator: mock when the credential is absent, otherwise call,
extract the payload, parse, validate; every failure path falls back to the
mock script.  The function is total, so no exception escapes. -/
def generate_script (o : GemOracle) (prompt : String) : JVal :=
  if o.hasKey = false then generate_mock_script prompt
  else
    match o.call with
    | none => generate_mock_script prompt
    | some text =>
      match o.loads (extractPayload "json" text) with
      | none => generate_mock_script prompt
      | some script =>
        match validate_script script with
        | .error _ => generate_mock_script prompt
        | .ok false => generate_mock_script prompt
        | .ok true => script

/-- Number of scenes of a script value, when it has the script shape. -/
def scenesCount (script : JVal) : Option Nat :=
  match script with
  | .jobj fields =>
    match getField fields "scenes" with
    | some (.jarr xs) => some xs.length
    | _ => none
  | _ => none

/-- Claim C4: the script generator never lets an exception escape (it is a
total function into script values); whenever the credential is absent, the
generative call fails, or the parsed response fails structural validation, it
returns the deterministic mock script built purely from the prompt; the mock
script has exactly 4 scenes and itself passes structural validation. -/
theorem generate_script_fallback_c4 (o : GemOracle) (prompt : String)
    (h : o.hasKey = false ∨ o.call = none ∨
      (∀ t, o.call = some t →
        (o.loads (extractPayload "json" t) = none ∨
          ∀ j, o.loads (extractPayload "json" t) = some j →
            validate_script j ≠ .ok true))) :
    generate_script o prompt = generate_mock_script prompt ∧
    scenesCount (generate_mock_script prompt) = some 4 ∧
    validate_script (generate_mock_script prompt) = .ok true := by
  refine ⟨?_, rfl, rfl⟩
  unfold generate_script
  cases hk : o.hasKey with
  | false => simp
  | true =>
    rw [if_neg (by simp [hk])]
    rcases h with h | h | h
    · rw [hk] at h
      exact absurd h (by simp)
    · rw [h]
    · cases hc : o.call with
      | none => rfl
      | some t =>
        dsimp only
        rcases h t hc with h2 | h2
        · rw [h2]
        · cases hl : o.loads (extractPayload "json" t) with
          | none => rfl
          | some j =>
            dsimp only
            have hne := h2 j hl
            cases hv : validate_script j with
            | error e => rfl
            | ok b =>
              cases b with
              | false => rfl
              | true => exact absurd hv hne

/-- Witness for claim C4 with the credential absent. -/
theorem generate_script_fallback_c4_witness :
    generate_script ⟨false, none, fun _ => none⟩ "Pythagorean theorem"
        = generate_mock_script "Pythagorean theorem" ∧
    scenesCount (generate_mock_script "Pythagorean theorem") = some 4 ∧
    validate_script (generate_mock_script "Pythagorean theorem") = .ok true :=
  generate_script_fallback_c4 ⟨false, none, fun _ => none⟩ "Pythagorean theorem"
    (Or.inl rfl)

/-- Python string conversion used when interpolating a JSON-like value into a
program template; containers do not occur in the interpolated positions of
this repository, so their textual form is abbreviated. -/
def pyStr (v : JVal) : String :=
  match v with
  | .jstr s => s
  | .jnum n => toString n
  | .jbool true => "True"
  | .jbool false => "False"
  | .jnull => "None"
  | .jarr _ => "[...]"
  | .jobj _ => "{...}"

/-- The per-index deterministic mock program templates with the narration text
interpolated, copied from the source. -/
def mockCodeTemplate (narration : String) (index : Nat) : String :=
  if index = 0 then
    "from manim import *\n\nclass Scene" ++ toString (index + 1) ++
    "(Scene):\n    def construct(self):\n        # Title scene\n        title = Text(\"" ++
    narration ++
    "\")\n        self.play(Write(title))\n        self.wait(1)\n        self.play(title.animate.to_edge(UP))\n        \n        # Create a circle that pulses\n        circle = Circle(radius=2, color=BLUE)\n        self.play(Create(circle))\n        \n        # Pulse animation\n        self.play(circle.animate.scale(1.2), rate_func=there_and_back)\n        self.play(circle.animate.scale(1.2), rate_func=there_and_back)\n        \n        self.wait(1)\n"
  else if index = 1 then
    "from manim import *\n\nclass Scene" ++ toString (index + 1) ++
    "(Scene):\n    def construct(self):\n        # Equation scene\n        title = Text(\"" ++
    narration ++
    "\", font_size=24)\n        title.to_edge(UP)\n        self.add(title)\n        \n        # Create an equation\n        equation = MathTex(\"x^2 + y^2 = r^2\")\n        \n        # Animate each part\n        self.play(Write(equation))\n        \n        # Highlight parts of the equation\n        self.play(equation.animate.set_color_by_tex(\"x^2\", YELLOW))\n        self.wait(0.5)\n        self.play(equation.animate.set_color_by_tex(\"y^2\", GREEN))\n        self.wait(0.5)\n        self.play(equation.animate.set_color_by_tex(\"r^2\", RED))\n        \n        self.wait(1)\n"
  else if index = 2 then
    "from manim import *\n\nclass Scene" ++ toString (index + 1) ++
    "(Scene):\n    def construct(self):\n        # Visual example scene\n        title = Text(\"" ++
    narration ++
    "\", font_size=24)\n        title.to_edge(UP)\n        self.add(title)\n        \n        # Create a coordinate system\n        axes = Axes(\n            x_range=[-3, 3, 1],\n            y_range=[-3, 3, 1],\n            axis_config=\x7b\"color\": BLUE\x7d\n        )\n        \n        # Add labels\n        x_label = axes.get_x_axis_label(\"x\")\n        y_label = axes.get_y_axis_label(\"y\")\n        \n        self.play(Create(axes), Write(x_label), Write(y_label))\n        \n        # Create a function graph\n        graph = axes.plot(lambda x: x**2, color=RED)\n        graph_label = MathTex(\"f(x) = x^2\").next_to(graph, UP)\n        \n        self.play(Create(graph), Write(graph_label))\n        \n        # Show a point moving along the graph\n        dot = Dot(color=YELLOW)\n        dot.move_to(axes.c2p(-2, 4))\n        \n        self.play(FadeIn(dot))\n        \n        self.play(\n            dot.animate.move_to(axes.c2p(2, 4)),\n            rate_func=lambda t: t,\n            run_time=3\n        )\n        \n        self.wait(1)\n"
  else
    "from manim import *\n\nclass Scene" ++ toString (index + 1) ++
    "(Scene):\n    def construct(self):\n        # Summary scene\n        title = Text(\"" ++
    narration ++
    "\", font_size=24)\n        title.to_edge(UP)\n        self.add(title)\n        \n        # Create bullet points\n        points = [\n            \"Key point 1 about the topic\",\n            \"Key point 2 about the topic\",\n            \"Key point 3 about the topic\"\n        ]\n        \n        bullets = VGroup()\n        for i, point in enumerate(points):\n            bullet = Text(\"• \" + point, font_size=24)\n            bullets.add(bullet)\n        \n        bullets.arrange(DOWN, aligned_edge=LEFT, buff=0.5)\n        bullets.next_to(title, DOWN, buff=1)\n        \n        # Animate each bullet point\n        for bullet in bullets:\n            self.play(Write(bullet))\n            self.wait(0.5)\n        \n        # Final animation\n        final_equation = MathTex(\"E = mc^2\")\n        final_equation.next_to(bullets, DOWN, buff=1)\n        \n        self.play(Write(final_equation))\n        self.play(final_equation.animate.scale(1.5).set_color(YELLOW))\n        \n        self.wait(1)\n"

/-- The mock code generator: reads the narration and visual-description
fields of the scene (either read raises on a scene that is not an object),
then builds the per-index template. -/
def generate_mock_code (scene : JVal) (index : Nat) : Except String String :=
  match pyIndex scene "narration" with
  | .error e => .error e
  | .ok nv =>
    match pyIndex scene "visualDescription" with
    | .error e => .error e
    | .ok _ => .ok (mockCodeTemplate (pyStr nv) index)

/-- Field accesses performed while building the generative prompt, in source
order; any raising access sends control to the fallback handler. -/
def promptAccesses (scene : JVal) : Except String Unit :=
  match pyIndex scene "visualDescription" with
  | .error e => .error e
  | .ok _ =>
    match pyIndex scene "startTime" with
    | .error e => .error e
    | .ok _ =>
      match pyIndex scene "endTime" with
      | .error e => .error e
      | .ok _ =>
        match pyIndex scene "narration" with
        | .error e => .error e
        | .ok _ => .ok ()

/-- Outcome of the generative-text call for the code generator. -/
structure CodeGenOracle where
  hasKey : Bool
  call : Option String

/-- The per-scene code generator.  A failure inside the guarded block falls
back to the mock generator; a failure raised by the mock generator itself is
raised again identically by the fallback handler, hence escapes. -/
def generate_manim_code (o : CodeGenOracle) (scene : JVal) (index : Nat) :
    Except String String :=
  if o.hasKey = false then generate_mock_code scene index
  else
    match promptAccesses scene with
    | .error _ => generate_mock_code scene index
    | .ok _ =>
      match o.call with
      | none => generate_mock_code scene index
      | some text =>
        .ok (ensure_proper_class_name (extractPayload "python" text) index)

theorem isPrefixOf_append_self (a x : List Char) : a.isPrefixOf (a ++ x) = true :=
  List.isPrefixOf_iff_prefix.mpr (List.prefix_append a x)

theorem containsSubL_append_self (a x : List Char) : containsSubL a (a ++ x) = true := by
  unfold containsSubL
  cases ha : a ++ x with
  | nil =>
    have : a = [] := by
      cases a with
      | nil => rfl
      | cons c l => simp at ha
    rw [this, findSplit_nil]
    simp [List.isEmpty]
  | cons c rest =>
    rw [findSplit_cons]
    have hpre : a.isPrefixOf (c :: rest) = true := by
      rw [← ha]
      exact isPrefixOf_append_self a x
    rw [if_pos hpre]
    simp

theorem containsSubL_cons {x t : List Char} (c : Char)
    (h : containsSubL x t = true) : containsSubL x (c :: t) = true := by
  unfold containsSubL at h ⊢
  rw [findSplit_cons]
  by_cases hpre : x.isPrefixOf (c :: t) = true
  · rw [if_pos hpre]
    simp
  · rw [if_neg hpre]
    rcases hfs : findSplit x t with _ | ⟨pre, post⟩
    · rw [hfs] at h
      simp at h
    · simp

/-- Replacing occurrences of a non-empty pattern that does occur in the
subject makes the substitute text a substring of the result. -/
theorem replaceAllFuel_inserts (pat sub : List Char) (hne : pat ≠ []) :
    ∀ fuel s, s.length ≤ fuel → containsSubL pat s = true →
      containsSubL sub (replaceAllFuel pat sub fuel s) = true := by
  intro fuel
  induction fuel with
  | zero =>
    intro s hle hocc
    have hs : s = [] := List.length_eq_zero.mp (Nat.le_zero.mp hle)
    rw [hs] at hocc
    unfold containsSubL at hocc
    rw [findSplit_nil, if_neg (by simpa [List.isEmpty_iff] using hne)] at hocc
    simp at hocc
  | succ fuel ih =>
    intro s hle hocc
    cases s with
    | nil =>
      unfold containsSubL at hocc
      rw [findSplit_nil, if_neg (by simpa [List.isEmpty_iff] using hne)] at hocc
      simp at hocc
    | cons c rest =>
      by_cases hpre : pat.isPrefixOf (c :: rest) = true
      · have hstep : replaceAllFuel pat sub (fuel + 1) (c :: rest)
            = sub ++ replaceAllFuel pat sub fuel ((c :: rest).drop pat.length) := by
          conv_lhs => rw [replaceAllFuel.eq_def]
          dsimp only
          rw [hpre]
          simp [List.isEmpty_iff, hne]
        rw [hstep]
        exact containsSubL_append_self sub _
      · have hpre2 : pat.isPrefixOf (c :: rest) = false := by
          cases hx : pat.isPrefixOf (c :: rest) with
          | false => rfl
          | true => exact absurd hx hpre
        have hstep : replaceAllFuel pat sub (fuel + 1) (c :: rest)
            = c :: replaceAllFuel pat sub fuel rest := by
          conv_lhs => rw [replaceAllFuel.eq_def]
          dsimp only
          rw [hpre2]
          simp
        rw [hstep]
        have hocc2 : containsSubL pat rest = true := by
          unfold containsSubL at hocc ⊢
          rw [findSplit_cons, if_neg hpre] at hocc
          rcases hfs : findSplit pat rest with _ | ⟨pre, post⟩
          · rw [hfs] at hocc
            simp at hocc
          · simp
        have hlen : rest.length ≤ fuel := by
          simp only [List.length_cons] at hle
          omega
        exact containsSubL_cons c (ih rest hlen hocc2)

theorem pyReplace_inserts {s old new : String} (hne : old.data ≠ [])
    (hocc : containsSubStr old s = true) :
    containsSubStr new (pyReplace s old new) = true := by
  unfold containsSubStr at hocc ⊢
  unfold pyReplace
  exact replaceAllFuel_inserts old.data new.data hne s.data.length s.data le_rfl hocc

/-- Claim C6 counterexample input: generated code whose class name is the
scene tag of a later scene. -/
def c6code : String := "class Scene12(Scene):\n    pass"

/-- Claim C6 is false as stated: the post-processing step leaves the class
name of this code unchanged at two distinct scene indices (0 and 11), because
the tag of index 0 is a substring of the tag of index 11, so the resulting
primary class names coincide and per-scene uniqueness fails. -/
theorem ensure_class_name_counterexample :
    extract_class_name c6code = some "Scene12" ∧
    ensure_proper_class_name c6code 0 = c6code ∧
    ensure_proper_class_name c6code 11 = c6code ∧
    extract_class_name (ensure_proper_class_name c6code 0)
      = extract_class_name (ensure_proper_class_name c6code 11) ∧
    (0 : Nat) ≠ 11 := by
  refine ⟨rfl, rfl, rfl, rfl, by decide⟩

/-- Claim C6 (amended): when no class declaration of the recognized form is
present, the generative output is discarded for the fixed title-card fallback
program of that index, whose primary class name embeds `index + 1`; when a
declaration is recognized and its name already contains the scene tag the code
is kept unchanged, and otherwise every exact occurrence of the declaration is
rewritten so that the scene tag occurs in the result whenever the declaration
occurs in the exact unspaced form.  Distinct indices need not produce distinct
class names. -/
theorem ensure_class_name_amended (code : String) (i : Nat) :
    (extract_class_name code = none →
      ensure_proper_class_name code i = fallbackProgram i ∧
      extract_class_name (ensure_proper_class_name code i)
        = some ("Scene" ++ toString (i + 1))) ∧
    (∀ cur, extract_class_name code = some cur →
      (containsSubStr ("Scene" ++ toString (i + 1)) cur = true →
        ensure_proper_class_name code i = code) ∧
      (containsSubStr ("Scene" ++ toString (i + 1)) cur = false →
        ensure_proper_class_name code i
          = pyReplace code ("class " ++ cur ++ "(Scene)")
              ("class Scene" ++ toString (i + 1) ++ "(Scene)") ∧
        (containsSubStr ("class " ++ cur ++ "(Scene)") code = true →
          containsSubStr ("class Scene" ++ toString (i + 1) ++ "(Scene)")
            (ensure_proper_class_name code i) = true))) := by
  constructor
  · intro hnone
    have heq : ensure_proper_class_name code i = fallbackProgram i := by
      unfold ensure_proper_class_name
      rw [hnone]
    rw [heq]
    exact ⟨rfl, extract_class_name_fallbackProgram i⟩
  · intro cur hsome
    constructor
    · intro htrue
      unfold ensure_proper_class_name
      rw [hsome]
      dsimp only
      rw [if_pos htrue]
    · intro hfalse
      have heq : ensure_proper_class_name code i
          = pyReplace code ("class " ++ cur ++ "(Scene)")
              ("class Scene" ++ toString (i + 1) ++ "(Scene)") := by
        unfold ensure_proper_class_name
        rw [hsome]
        dsimp only
        rw [if_neg (by simp [hfalse])]
      refine ⟨heq, ?_⟩
      intro hocc
      have hne : ("class " ++ cur ++ "(Scene)").data ≠ [] := by
        rw [String.data_append, String.data_append]
        intro h
        rcases List.append_eq_nil.mp h with ⟨h1, _⟩
        rcases List.append_eq_nil.mp h1 with ⟨h2, _⟩
        exact absurd h2 (by decide)
      rw [heq]
      exact pyReplace_inserts hne hocc

/-- Witness for the amended claim C6 at code with no recognizable class
declaration. -/
theorem ensure_class_name_amended_witness :
    ensure_proper_class_name "print(1)" 0 = fallbackProgram 0 ∧
    extract_class_name (ensure_proper_class_name "print(1)" 0)
      = some ("Scene" ++ toString (0 + 1)) :=
  (ensure_class_name_amended "print(1)" 0).1 rfl

/-- A file system: paths mapped to byte contents (bytes as naturals). -/
def Fs := List (String × List Nat)

def getFile (fs : Fs) (p : String) : Option (List Nat) :=
  match fs with
  | [] => none
  | (q, bs) :: rest => if q = p then some bs else getFile rest p

def setFile (fs : Fs) (p : String) (bs : List Nat) : Fs :=
  (p, bs) :: fs

theorem getFile_setFile_self (fs : Fs) (p : String) (bs : List Nat) :
    getFile (setFile fs p bs) p = some bs := by
  unfold setFile getFile
  rw [if_pos rfl]

/-- The copy fallback of the composer: copy the source file to the
destination and return the destination path; any failure (such as a missing
source) is caught and the empty string returned. -/
def fallback_copy (source_path dest_path : String) (fs : Fs) : String × Fs :=
  match getFile fs source_path with
  | some bytes => (dest_path, setFile fs dest_path bytes)
  | none => ("", fs)

/-- Outcome of one external media-tool run: `none` when spawning raised, and
the exit code otherwise; on exit code zero the tool wrote `written` to the
output path. -/
structure FfmpegRun where
  result : Option Int
  written : List Nat

/-- Combine audio and video: on a successful tool run the output path is
returned; any non-zero exit or exception falls back to copying the video
file. -/
def combine_audio_video (run : FfmpegRun) (video_path _audio_path output_path : String)
    (fs : Fs) : String × Fs :=
  match run.result with
  | some 0 => (output_path, setFile fs output_path run.written)
  | _ => fallback_copy video_path output_path fs

/-- Concatenate clips: empty input returns the empty-result signal without
touching the file system; a single clip short-circuits to a verbatim copy;
several clips build a temporary manifest (written and then removed, elided
from the file map; a manifest-write failure is caught and handled by the same
copy fallback) and run the stream-copy concatenation, falling back to copying
the first clip on any failure. -/
def concat_videos (run : FfmpegRun) (listWriteOk : Bool) (video_paths : List String)
    (output_path : String) (fs : Fs) : String × Fs :=
  match video_paths with
  | [] => ("", fs)
  | [p] => fallback_copy p output_path fs
  | p :: _ :: _ =>
    if listWriteOk = false then fallback_copy p output_path fs
    else
      match run.result with
      | some 0 => (output_path, setFile fs output_path run.written)
      | _ => fallback_copy p output_path fs

/-- Claim C8: concatenation of an empty list returns the empty-result signal
and leaves the file system untouched; concatenation of exactly one readable
path writes a byte-identical copy of that file at the output path and returns
the output path. -/
theorem concat_videos_edge_cases (run : FfmpegRun) (lok : Bool)
    (out : String) (fs : Fs) :
    concat_videos run lok [] out fs = ("", fs) ∧
    (∀ p bytes, getFile fs p = some bytes →
      concat_videos run lok [p] out fs = (out, setFile fs out bytes) ∧
      getFile (concat_videos run lok [p] out fs).2 out = some bytes) := by
  refine ⟨rfl, ?_⟩
  intro p bytes hread
  have h1 : concat_videos run lok [p] out fs = (out, setFile fs out bytes) := by
    unfold concat_videos fallback_copy
    dsimp only
    rw [hread]
  exact ⟨h1, by rw [h1]; exact getFile_setFile_self fs out bytes⟩

/-- Witness for claim C8 on a one-file file system. -/
theorem concat_videos_edge_cases_witness :
    concat_videos ⟨some 0, []⟩ true [] "/o.mp4" [("/a.mp4", [7, 7])] = ("", [("/a.mp4", [7, 7])]) ∧
    concat_videos ⟨some 0, []⟩ true ["/a.mp4"] "/o.mp4" [("/a.mp4", [7, 7])]
      = ("/o.mp4", setFile [("/a.mp4", [7, 7])] "/o.mp4" [7, 7]) ∧
    getFile (concat_videos ⟨some 0, []⟩ true ["/a.mp4"] "/o.mp4" [("/a.mp4", [7, 7])]).2 "/o.mp4"
      = some [7, 7] := by
  have h := concat_videos_edge_cases ⟨some 0, []⟩ true "/o.mp4" [("/a.mp4", [7, 7])]
  have h2 := h.2 "/a.mp4" [7, 7] rfl
  exact ⟨h.1, h2.1, h2.2⟩

/-- Outcomes of the fallible calls inside the speech wrapper. -/
structure TtsOracle where
  hasKey : Bool
  api : Option (Nat × List Nat)
  saveOk : Bool
  mockMkdirsOk : Bool
  mockWriteOk : Bool

/-- The fixed placeholder audio header bytes. -/
def mockMp3Header : List Nat :=
  [0xFF, 0xFB, 0x90, 0x44, 0, 0, 0, 0, 0, 0, 0, 0, 0, 0, 0, 0]

/-- Placeholder audio generation: write the fixed header; any failure is
caught and the output path returned regardless. -/
def generate_mock_audio (o : TtsOracle) (output_path : String) (fs : Fs) :
    String × Fs :=
  if o.mockMkdirsOk && o.mockWriteOk then
    (output_path, setFile fs output_path mockMp3Header)
  else (output_path, fs)

/-- The speech wrapper: on a 200 response write the body verbatim; on a
missing credential, transport failure, non-200 status or write failure fall
back to the placeholder audio.  Every path returns the output path. -/
def generate_speech (o : TtsOracle) (_text output_path _voice_id : String)
    (fs : Fs) : String × Fs :=
  if o.hasKey = false then generate_mock_audio o output_path fs
  else
    match o.api with
    | none => generate_mock_audio o output_path fs
    | some (status, content) =>
      if status = 200 then
        if o.saveOk then (output_path, setFile fs output_path content)
        else generate_mock_audio o output_path fs
      else generate_mock_audio o output_path fs

theorem generate_mock_audio_fst (o : TtsOracle) (p : String) (fs : Fs) :
    (generate_mock_audio o p fs).1 = p := by
  unfold generate_mock_audio
  split <;> rfl

theorem generate_speech_fst (o : TtsOracle) (text p voice : String) (fs : Fs) :
    (generate_speech o text p voice fs).1 = p := by
  unfold generate_speech
  split
  · exact generate_mock_audio_fst o p fs
  · split
    · exact generate_mock_audio_fst o p fs
    · split
      · split
        · rfl
        · exact generate_mock_audio_fst o p fs
      · exact generate_mock_audio_fst o p fs

/-- What got written at the renderer output path. -/
inductive VideoContent where
  | renderedCopy
  | colorClip
  | stubHeader
deriving DecidableEq

/-- Outcomes of the fallible calls inside the renderer. -/
structure RenderOracle where
  manimInstalled : Bool
  writeSceneOk : Bool
  mkdirsOk : Bool
  spawn : Option Int
  artifactFound : Bool
  rmtreeOk : Bool
  mockMkdirsOk : Bool
  mockFfmpeg : Option Int
  mockStubOk : Bool

/-- Observable outcome of one renderer invocation. -/
structure RenderResult where
  ret : String
  written : Option VideoContent
  tempCreated : Bool
  cleanupAttempted : Bool
  tempRemoved : Bool

/-- Placeholder video generation: a solid-color clip via the media tool when
it succeeds, else the fixed stub bytes; any failure is caught and the output
path returned regardless. -/
def generate_mock_video (o : RenderOracle) (output_path : String) :
    String × Option VideoContent :=
  if o.mockMkdirsOk = false then (output_path, none)
  else
    match o.mockFfmpeg with
    | some 0 => (output_path, some .colorClip)
    | _ =>
      if o.mockStubOk then (output_path, some .stubHeader)
      else (output_path, none)

/-- Quality-tier mapping of the renderer. -/
def qualityFlag (q : String) : String :=
  if q = "low" then "-ql" else if q = "high" then "-qh" else "-qm"

/-- The copy of the rendered artifact to the output path.  In the source the
module that performs file copies is imported only inside the `finally` block
of this function, which under Python scoping makes that name local to the
whole function body; the reference at the copy site therefore always raises
before any copy happens. -/
def copyArtifactStep : Except String Unit :=
  .error "UnboundLocalError: local variable referenced before assignment"

/-- The renderer.  Mirrors the source's control flow: placeholder when the
engine is missing; per-invocation temporary directory; placeholder when no
class name is recognized (before the guarded block, so no cleanup); scene
file write and output-directory creation (failures there skip cleanup too);
then the guarded engine run whose cleanup clause always executes. -/
def render_scene (o : RenderOracle) (scene_code : String) (output_path : String)
    (quality : String) : RenderResult :=
  if o.manimInstalled = false then
    let m := generate_mock_video o output_path
    ⟨m.1, m.2, false, false, false⟩
  else
    match extract_class_name scene_code with
    | none =>
      let m := generate_mock_video o output_path
      ⟨m.1, m.2, true, false, false⟩
    | some _class_name =>
      if o.writeSceneOk = false then
        let m := generate_mock_video o output_path
        ⟨m.1, m.2, true, false, false⟩
      else
        let _qflag := qualityFlag quality
        if o.mkdirsOk = false then
          let m := generate_mock_video o output_path
          ⟨m.1, m.2, true, false, false⟩
        else
          let inner : String × Option VideoContent :=
            match o.spawn with
            | none => generate_mock_video o output_path
            | some rc =>
              if rc ≠ 0 then generate_mock_video o output_path
              else if o.artifactFound = false then generate_mock_video o output_path
              else
                match copyArtifactStep with
                | .ok _ => (output_path, some .renderedCopy)
                | .error _ => generate_mock_video o output_path
          ⟨inner.1, inner.2, true, true, o.rmtreeOk⟩

theorem generate_mock_video_fst (o : RenderOracle) (p : String) :
    (generate_mock_video o p).1 = p := by
  unfold generate_mock_video
  split
  · rfl
  · split
    · rfl
    · split <;> rfl

theorem generate_mock_video_snd_ne (o : RenderOracle) (p : String) :
    (generate_mock_video o p).2 ≠ some VideoContent.renderedCopy := by
  unfold generate_mock_video
  split
  · simp
  · split
    · simp
    · split <;> simp

theorem render_scene_ret (o : RenderOracle) (c p q : String) :
    (render_scene o c p q).ret = p := by
  unfold render_scene
  split
  · exact generate_mock_video_fst o p
  · split
    · exact generate_mock_video_fst o p
    · split
      · exact generate_mock_video_fst o p
      · split
        · exact generate_mock_video_fst o p
        · dsimp only
          split
          · exact generate_mock_video_fst o p
          · split
            · exact generate_mock_video_fst o p
            · split
              · exact generate_mock_video_fst o p
              · split
                · rfl
                · exact generate_mock_video_fst o p

/-- Claim C3 (code bug): the renderer can never copy the rendered artifact to
the output path — on every input the written content is a placeholder or
nothing — and on the fully successful environment (engine installed, class
name recognized, exit code zero, artifact present) the written content is the
solid-color placeholder clip while the output path is still returned.  The
copy site raises because the file-copy module is imported only inside the
cleanup clause, making its name local and unbound at the copy. -/
theorem render_scene_success_path_bug :
    (∀ (o : RenderOracle) (c p q : String),
      (render_scene o c p q).written ≠ some VideoContent.renderedCopy) ∧
    (render_scene ⟨true, true, true, some 0, true, true, true, some 0, true⟩
        "class Scene1(Scene):\n    pass" "/out.mp4" "low").written
      = some VideoContent.colorClip ∧
    (render_scene ⟨true, true, true, some 0, true, true, true, some 0, true⟩
        "class Scene1(Scene):\n    pass" "/out.mp4" "low").ret = "/out.mp4" := by
  refine ⟨?_, rfl, rfl⟩
  intro o c p q
  unfold render_scene
  split
  · exact generate_mock_video_snd_ne o p
  · split
    · exact generate_mock_video_snd_ne o p
    · split
      · exact generate_mock_video_snd_ne o p
      · split
        · exact generate_mock_video_snd_ne o p
        · dsimp only
          split
          · exact generate_mock_video_snd_ne o p
          · split
            · exact generate_mock_video_snd_ne o p
            · split
              · exact generate_mock_video_snd_ne o p
              · split
                · rename_i hok
                  exact absurd hok (by simp [copyArtifactStep])
                · exact generate_mock_video_snd_ne o p

/-- Claim C10 is false as stated: with the engine installed and code carrying
no recognizable class declaration, the per-invocation temporary directory is
created but its removal is never attempted, because the fallback return
happens before the block whose cleanup clause removes it. -/
theorem render_scene_temp_leak_counterexample :
    (render_scene ⟨true, true, true, some 0, true, true, true, some 0, true⟩
        "print(42)" "/out.mp4" "medium").tempCreated = true ∧
    (render_scene ⟨true, true, true, some 0, true, true, true, some 0, true⟩
        "print(42)" "/out.mp4" "medium").cleanupAttempted = false := ⟨rfl, rfl⟩

/-- Claim C10 (amended): with the engine installed, the temporary directory is
removed (best-effort, so exactly when the removal call succeeds) on every exit
path of the engine-invocation block — engine failure, missing artifact,
exception, and the raising copy site of the success path — but on the
missing-class-name fallback the directory is created and no removal is
attempted. -/
theorem render_scene_cleanup_amended (o : RenderOracle) (c p q : String)
    (hm : o.manimInstalled = true) :
    (∀ cn, extract_class_name c = some cn → o.writeSceneOk = true →
      o.mkdirsOk = true →
      (render_scene o c p q).cleanupAttempted = true ∧
      (render_scene o c p q).tempRemoved = o.rmtreeOk) ∧
    (extract_class_name c = none →
      (render_scene o c p q).tempCreated = true ∧
      (render_scene o c p q).cleanupAttempted = false) := by
  constructor
  · intro cn hcn hw hk
    unfold render_scene
    rw [hm, hcn, hw, hk]
    simp
  · intro hnone
    unfold render_scene
    rw [hm, hnone]
    simp

/-- Witness for the amended claim C10 at a concrete successful render. -/
theorem render_scene_cleanup_amended_witness :
    (render_scene ⟨true, true, true, some 0, true, true, true, some 0, true⟩
        "class Scene1(Scene):\n    pass" "/o.mp4" "low").cleanupAttempted = true ∧
    (render_scene ⟨true, true, true, some 0, true, true, true, some 0, true⟩
        "class Scene1(Scene):\n    pass" "/o.mp4" "low").tempRemoved = true :=
  (render_scene_cleanup_amended ⟨true, true, true, some 0, true, true, true, some 0, true⟩
    "class Scene1(Scene):\n    pass" "/o.mp4" "low" rfl).1 "Scene1" rfl rfl rfl

/-- Claim C5 is false as stated: when the media tool raises and the copy
fallback also fails (missing source file), `combine_audio_video` returns the
empty string, not the output path. -/
theorem combine_both_fail_counterexample :
    combine_audio_video ⟨none, []⟩ "/v.mp4" "/a.mp3" "/o.mp4" [] = ("", []) ∧
    ("" : String) ≠ "/o.mp4" :=
  ⟨rfl, by decide⟩

theorem pyIndex_jobj_isSome {fields : List (String × JVal)} {k : String}
    (h : (getField fields k).isSome = true) :
    ∃ v, pyIndex (.jobj fields) k = .ok v := by
  unfold pyIndex
  dsimp only
  cases hg : getField fields k with
  | none => rw [hg] at h; simp at h
  | some v => exact ⟨v, rfl⟩

theorem generate_mock_code_ok {fields : List (String × JVal)} (i : Nat)
    (hn : (getField fields "narration").isSome = true)
    (hv : (getField fields "visualDescription").isSome = true) :
    ∃ s, generate_mock_code (.jobj fields) i = .ok s := by
  unfold generate_mock_code
  obtain ⟨nv, hnv⟩ := pyIndex_jobj_isSome hn
  obtain ⟨vv, hvv⟩ := pyIndex_jobj_isSome hv
  rw [hnv, hvv]
  exact ⟨_, rfl⟩

theorem fallback_copy_fst_or (s d : String) (fs : Fs) :
    (fallback_copy s d fs).1 = d ∨ (fallback_copy s d fs).1 = "" := by
  unfold fallback_copy
  cases getFile fs s <;> simp

/-- Claim C5 (amended): no wrapper lets an exception escape on the inputs the
pipeline produces — the script generator always returns a structurally valid
script, the code generator returns code for every object scene carrying its
fields, and the speech and render wrappers always return the output path —
but the two composer operations return the output path only while the media
tool or the copy fallback succeeds, and return the empty-result signal (the
empty string) when both fail, or on an empty concatenation input. -/
theorem wrappers_artifact_c5 :
    (∀ (o : GemOracle) (prompt : String),
      validate_script (generate_script o prompt) = .ok true) ∧
    (∀ (o : CodeGenOracle) (fields : List (String × JVal)) (i : Nat),
      (getField fields "narration").isSome = true →
      (getField fields "visualDescription").isSome = true →
      (getField fields "startTime").isSome = true →
      (getField fields "endTime").isSome = true →
      ∃ s, generate_manim_code o (.jobj fields) i = .ok s) ∧
    (∀ (o : TtsOracle) (text p voice : String) (fs : Fs),
      (generate_speech o text p voice fs).1 = p) ∧
    (∀ (o : RenderOracle) (c p q : String), (render_scene o c p q).ret = p) ∧
    (∀ (run : FfmpegRun) (v a out : String) (fs : Fs),
      ((combine_audio_video run v a out fs).1 = out ∨
        (combine_audio_video run v a out fs).1 = "") ∧
      ((run.result = some 0 ∨ (getFile fs v).isSome = true) →
        (combine_audio_video run v a out fs).1 = out)) ∧
    (∀ (run : FfmpegRun) (lok : Bool) (paths : List String) (out : String) (fs : Fs),
      (concat_videos run lok paths out fs).1 = out ∨
      (concat_videos run lok paths out fs).1 = "") := by
  refine ⟨?_, ?_, generate_speech_fst, render_scene_ret, ?_, ?_⟩
  · intro o prompt
    unfold generate_script
    split
    · rfl
    · split
      · rfl
      · split
        · rfl
        · split
          · rfl
          · rfl
          · rename_i hv
            exact hv
  · intro o fields i hn hv hs he
    unfold generate_manim_code
    split
    · exact generate_mock_code_ok i hn hv
    · have hacc : promptAccesses (.jobj fields) = .ok () := by
        unfold promptAccesses
        obtain ⟨v1, h1⟩ := pyIndex_jobj_isSome hv
        obtain ⟨v2, h2⟩ := pyIndex_jobj_isSome hs
        obtain ⟨v3, h3⟩ := pyIndex_jobj_isSome he
        obtain ⟨v4, h4⟩ := pyIndex_jobj_isSome hn
        rw [h1, h2, h3, h4]
      rw [hacc]
      cases o.call with
      | none => exact generate_mock_code_ok i hn hv
      | some text => exact ⟨_, rfl⟩
  · intro run v a out fs
    constructor
    · unfold combine_audio_video
      split
      · simp
      · exact fallback_copy_fst_or v out fs
    · intro hok
      unfold combine_audio_video
      rcases hok with hok | hok
      · rw [hok]
        rfl
      · split
        · simp
        · unfold fallback_copy
          cases hg : getFile fs v with
          | none => rw [hg] at hok; simp at hok
          | some bs => simp
  · intro run lok paths out fs
    unfold concat_videos
    cases paths with
    | nil => simp
    | cons p rest =>
      cases rest with
      | nil => exact fallback_copy_fst_or p out fs
      | cons p2 rest2 =>
        dsimp only
        split
        · exact fallback_copy_fst_or p out fs
        · split
          · simp
          · exact fallback_copy_fst_or p out fs

/-- Witness for the amended claim C5 at concrete inputs. -/
theorem wrappers_artifact_c5_witness :
    validate_script (generate_script ⟨true, none, fun _ => none⟩ "topic") = .ok true ∧
    (∃ s, generate_manim_code ⟨false, none⟩
      (.jobj [("narration", .jstr "n"), ("visualDescription", .jstr "v"),
              ("startTime", .jstr "00:00"), ("endTime", .jstr "00:10")]) 0 = .ok s) ∧
    (generate_speech ⟨false, none, true, true, true⟩ "t" "/s.mp3" "v" []).1 = "/s.mp3" ∧
    (combine_audio_video ⟨some 0, [1]⟩ "/v.mp4" "/a.mp3" "/o.mp4" []).1 = "/o.mp4" :=
  ⟨wrappers_artifact_c5.1 ⟨true, none, fun _ => none⟩ "topic",
   wrappers_artifact_c5.2.1 ⟨false, none⟩
     [("narration", .jstr "n"), ("visualDescription", .jstr "v"),
      ("startTime", .jstr "00:00"), ("endTime", .jstr "00:10")] 0 rfl rfl rfl rfl,
   wrappers_artifact_c5.2.2.1 ⟨false, none, true, true, true⟩ "t" "/s.mp3" "v" [],
   (wrappers_artifact_c5.2.2.2.2.1 ⟨some 0, [1]⟩ "/v.mp4" "/a.mp3" "/o.mp4" []).2
     (Or.inl rfl)⟩

/-- The job-status record stored in the process-wide job map. -/
structure JobRec where
  job_id : String
  status : String
  progress : ℚ
  message : String
  script : Option JVal
  video_url : Option String
  error : Option String

/-- The record the submit endpoint installs when a job is accepted. -/
def initialStatus (jid : String) : JobRec :=
  ⟨jid, "queued", 0, "Job queued", none, none, none⟩

/-- Where, if anywhere, an exception is raised inside the guarded body of the
background task (between two consecutive status writes of the stage it
names). -/
inductive TaskFail where
  | noFail
  | atScript (e : String)
  | atCode (e : String)
  | atAudio (e : String)
  | atRender (e : String)
  | atCompose (e : String)

def errOf : TaskFail → Option String
  | .noFail => none
  | .atScript e => some e
  | .atCode e => some e
  | .atAudio e => some e
  | .atRender e => some e
  | .atCompose e => some e

/-- The six status writes of the task body, in program order.  The first is a
whole-record replacement; the rest are field updates. -/
def pipeWrite1 (jid : String) : JobRec :=
  ⟨jid, "processing", 0.05, "Generating script...", none, none, none⟩

def pipeWrite2 (jid : String) (scr : JVal) : JobRec :=
  { pipeWrite1 jid with progress := 0.2, message := "Generating Manim code...", script := some scr }

def pipeWrite3 (jid : String) (scr : JVal) : JobRec :=
  { pipeWrite2 jid scr with progress := 0.4, message := "Generating audio..." }

def pipeWrite4 (jid : String) (scr : JVal) : JobRec :=
  { pipeWrite3 jid scr with progress := 0.6, message := "Rendering animations..." }

def pipeWrite5 (jid : String) (scr : JVal) : JobRec :=
  { pipeWrite4 jid scr with progress := 0.8, message := "Composing final video..." }

def pipeWrite6 (jid : String) (scr : JVal) : JobRec :=
  { pipeWrite5 jid scr with
    status := "completed"
    progress := 1
    message := "Video generation completed"
    video_url := some ("/jobs/" ++ jid ++ "/output/final_video.mp4") }

/-- The top-level exception handler's writes: status, message and error only;
progress, script and video location keep their last values. -/
def failWrite (r : JobRec) (e : String) : JobRec :=
  { r with status := "failed", message := "Video generation failed", error := some e }

/-- The background task.  Subdirectory creation happens before the guarded
body, so an exception there escapes with no status write; inside the body the
stage writes happen in order until the failure point, and the handler then
appends its single write; absent a failure the completion write ends the run.
Returns the successive values of the status record and the escaped exception,
if any. -/
def generate_video_task (jid : String) (mkdirFail : Option String)
    (tf : TaskFail) (scr : JVal) : List JobRec × Option String :=
  match mkdirFail with
  | some e => ([], some e)
  | none =>
    match tf with
    | .noFail =>
      ([pipeWrite1 jid, pipeWrite2 jid scr, pipeWrite3 jid scr,
        pipeWrite4 jid scr, pipeWrite5 jid scr, pipeWrite6 jid scr], none)
    | .atScript e => ([pipeWrite1 jid, failWrite (pipeWrite1 jid) e], none)
    | .atCode e =>
      ([pipeWrite1 jid, pipeWrite2 jid scr, failWrite (pipeWrite2 jid scr) e], none)
    | .atAudio e =>
      ([pipeWrite1 jid, pipeWrite2 jid scr, pipeWrite3 jid scr,
        failWrite (pipeWrite3 jid scr) e], none)
    | .atRender e =>
      ([pipeWrite1 jid, pipeWrite2 jid scr, pipeWrite3 jid scr,
        pipeWrite4 jid scr, failWrite (pipeWrite4 jid scr) e], none)
    | .atCompose e =>
      ([pipeWrite1 jid, pipeWrite2 jid scr, pipeWrite3 jid scr,
        pipeWrite4 jid scr, pipeWrite5 jid scr, failWrite (pipeWrite5 jid scr) e], none)

/-- The full lifecycle of the status record of an accepted job: the submit
record followed by the task's writes. -/
def jobTrace (jid : String) (mk : Option String) (tf : TaskFail) (scr : JVal) :
    List JobRec :=
  initialStatus jid :: (generate_video_task jid mk tf scr).1

theorem chain_progress_of_map (ps : List ℚ) {tr : List JobRec}
    (hmap : tr.map (fun r => r.progress) = ps)
    (h : List.Chain' (fun a b : ℚ => a ≤ b) ps) :
    List.Chain' (fun a b : ℚ => a ≤ b) (tr.map (fun r => r.progress)) := by
  rw [hmap]
  exact h

theorem progress_bound_of_map (ps : List ℚ) {tr : List JobRec}
    (hmap : tr.map (fun r => r.progress) = ps)
    (hall : ∀ p ∈ ps, p ≤ 1) :
    ∀ r ∈ tr, r.progress ≤ 1 := by
  intro r hr
  exact hall _ (hmap ▸ List.mem_map_of_mem (fun x => x.progress) hr)

/-- Claim C1 counterexample: when the workspace subdirectory creation raises
(the spec's own example of a defect, such as a full disk), the exception
escapes before any status write, so the accepted job's record stays queued at
progress 0 forever — neither completed at 1.0 nor failed below 1.0. -/
theorem job_final_state_counterexample :
    (jobTrace "j" (some "No space left on device") .noFail .jnull).getLast?
      = some (initialStatus "j") ∧
    (initialStatus "j").status = "queued" ∧
    (initialStatus "j").status ≠ "completed" ∧
    (initialStatus "j").status ≠ "failed" ∧
    (initialStatus "j").progress = 0 :=
  ⟨rfl, rfl, by decide, by decide, rfl⟩

/-- Claim C1 (amended): over the whole lifecycle the progress sequence is
monotonically non-decreasing and never exceeds 1; whenever the workspace
subdirectory creation does not raise, the final record is either completed at
exactly 1 or failed strictly below 1; and on the success path the progress
values are exactly 0, 0.05, 0.2, 0.4, 0.6, 0.8, 1 in that order.  When the
subdirectory creation raises, the record stays queued at 0. -/
theorem job_progress_c1 (jid : String) (mk : Option String) (tf : TaskFail)
    (scr : JVal) :
    List.Chain' (fun a b : ℚ => a ≤ b)
      ((jobTrace jid mk tf scr).map (fun r => r.progress)) ∧
    (∀ r ∈ jobTrace jid mk tf scr, r.progress ≤ 1) ∧
    (mk = none → ∃ r, (jobTrace jid mk tf scr).getLast? = some r ∧
      ((r.status = "completed" ∧ r.progress = 1) ∨
       (r.status = "failed" ∧ r.progress < 1))) ∧
    (mk = none → tf = .noFail →
      (jobTrace jid mk tf scr).map (fun r => r.progress)
        = [0, 0.05, 0.2, 0.4, 0.6, 0.8, 1]) := by
  cases mk with
  | some e =>
    refine ⟨chain_progress_of_map [0] rfl (by simp),
      progress_bound_of_map [0] rfl (by simp), ?_, ?_⟩
    · intro h
      exact absurd h (by simp)
    · intro h
      exact absurd h (by simp)
  | none =>
    cases tf with
    | noFail =>
      refine ⟨chain_progress_of_map [0, 0.05, 0.2, 0.4, 0.6, 0.8, 1] rfl (by simp [List.chain'_cons]; norm_num),
        progress_bound_of_map [0, 0.05, 0.2, 0.4, 0.6, 0.8, 1] rfl (by simp [List.forall_mem_cons]; norm_num),
        ?_, fun _ _ => rfl⟩
      intro _
      exact ⟨pipeWrite6 jid scr, rfl, Or.inl ⟨rfl, rfl⟩⟩
    | atScript e =>
      refine ⟨chain_progress_of_map [0, 0.05, 0.05] rfl (by simp [List.chain'_cons]; norm_num),
        progress_bound_of_map [0, 0.05, 0.05] rfl (by simp [List.forall_mem_cons]; norm_num), ?_, ?_⟩
      · intro _
        refine ⟨failWrite (pipeWrite1 jid) e, rfl, Or.inr ⟨rfl, ?_⟩⟩
        show (0.05 : ℚ) < 1
        norm_num
      · intro _ h
        exact absurd h (by simp)
    | atCode e =>
      refine ⟨chain_progress_of_map [0, 0.05, 0.2, 0.2] rfl (by simp [List.chain'_cons]; norm_num),
        progress_bound_of_map [0, 0.05, 0.2, 0.2] rfl (by simp [List.forall_mem_cons]; norm_num), ?_, ?_⟩
      · intro _
        refine ⟨failWrite (pipeWrite2 jid scr) e, rfl, Or.inr ⟨rfl, ?_⟩⟩
        show (0.2 : ℚ) < 1
        norm_num
      · intro _ h
        exact absurd h (by simp)
    | atAudio e =>
      refine ⟨chain_progress_of_map [0, 0.05, 0.2, 0.4, 0.4] rfl (by simp [List.chain'_cons]; norm_num),
        progress_bound_of_map [0, 0.05, 0.2, 0.4, 0.4] rfl (by simp [List.forall_mem_cons]; norm_num), ?_, ?_⟩
      · intro _
        refine ⟨failWrite (pipeWrite3 jid scr) e, rfl, Or.inr ⟨rfl, ?_⟩⟩
        show (0.4 : ℚ) < 1
        norm_num
      · intro _ h
        exact absurd h (by simp)
    | atRender e =>
      refine ⟨chain_progress_of_map [0, 0.05, 0.2, 0.4, 0.6, 0.6] rfl (by simp [List.chain'_cons]; norm_num),
        progress_bound_of_map [0, 0.05, 0.2, 0.4, 0.6, 0.6] rfl (by simp [List.forall_mem_cons]; norm_num), ?_, ?_⟩
      · intro _
        refine ⟨failWrite (pipeWrite4 jid scr) e, rfl, Or.inr ⟨rfl, ?_⟩⟩
        show (0.6 : ℚ) < 1
        norm_num
      · intro _ h
        exact absurd h (by simp)
    | atCompose e =>
      refine ⟨chain_progress_of_map [0, 0.05, 0.2, 0.4, 0.6, 0.8, 0.8] rfl (by simp [List.chain'_cons]; norm_num),
        progress_bound_of_map [0, 0.05, 0.2, 0.4, 0.6, 0.8, 0.8] rfl (by simp [List.forall_mem_cons]; norm_num), ?_, ?_⟩
      · intro _
        refine ⟨failWrite (pipeWrite5 jid scr) e, rfl, Or.inr ⟨rfl, ?_⟩⟩
        show (0.8 : ℚ) < 1
        norm_num
      · intro _ h
        exact absurd h (by simp)

/-- Witness for the amended claim C1: the success-path progress sequence at a
concrete job. -/
theorem job_progress_c1_witness :
    (jobTrace "j" none .noFail .jnull).map (fun r => r.progress)
      = [0, 0.05, 0.2, 0.4, 0.6, 0.8, 1] :=
  (job_progress_c1 "j" none .noFail .jnull).2.2.2 rfl rfl

/-- Claim C2 counterexample: an exception raised while creating the workspace
subdirectories (the spec's own example of a defect class) is not caught by
the handler — it escapes the task, no status write happens, and the record
never becomes failed. -/
theorem task_mkdir_escape_counterexample :
    generate_video_task "j" (some "No space left on device") .noFail .jnull
      = ([], some "No space left on device") ∧
    (∀ r ∈ (generate_video_task "j" (some "No space left on device") .noFail .jnull).1,
      r.status ≠ "failed") ∧
    (jobTrace "j" (some "No space left on device") .noFail .jnull).getLast?
      = some (initialStatus "j") :=
  ⟨rfl, by intro r hr; simp [generate_video_task] at hr, rfl⟩

/-- Claim C2 (amended): any exception raised inside the guarded task body
(after the workspace subdirectories are created) is caught exactly once; the
handler appends a single write that sets the status to failed, the message to
the fixed failure string and the error to the exception's description, and
leaves progress, script and video location at the previous record's values;
exceptions raised during subdirectory creation escape uncaught instead. -/
theorem task_failure_handler_c2 (jid : String) (tf : TaskFail) (scr : JVal)
    (e : String) (he : errOf tf = some e) :
    (generate_video_task jid none tf scr).2 = none ∧
    (∃ pre r, (generate_video_task jid none tf scr).1 = pre ++ [r, failWrite r e] ∧
      (failWrite r e).status = "failed" ∧
      (failWrite r e).message = "Video generation failed" ∧
      (failWrite r e).error = some e ∧
      (failWrite r e).progress = r.progress ∧
      (failWrite r e).script = r.script ∧
      (failWrite r e).video_url = r.video_url) ∧
    ((generate_video_task jid none tf scr).1.filter
      (fun x => x.status == "failed")).length = 1 := by
  cases tf with
  | noFail => simp [errOf] at he
  | atScript e2 =>
    rw [show e2 = e by simpa [errOf] using he]
    exact ⟨rfl, ⟨[], pipeWrite1 jid, rfl, rfl, rfl, rfl, rfl, rfl, rfl⟩, rfl⟩
  | atCode e2 =>
    rw [show e2 = e by simpa [errOf] using he]
    exact ⟨rfl, ⟨[pipeWrite1 jid], pipeWrite2 jid scr, rfl, rfl, rfl, rfl, rfl, rfl, rfl⟩, rfl⟩
  | atAudio e2 =>
    rw [show e2 = e by simpa [errOf] using he]
    exact ⟨rfl, ⟨[pipeWrite1 jid, pipeWrite2 jid scr], pipeWrite3 jid scr,
      rfl, rfl, rfl, rfl, rfl, rfl, rfl⟩, rfl⟩
  | atRender e2 =>
    rw [show e2 = e by simpa [errOf] using he]
    exact ⟨rfl, ⟨[pipeWrite1 jid, pipeWrite2 jid scr, pipeWrite3 jid scr],
      pipeWrite4 jid scr, rfl, rfl, rfl, rfl, rfl, rfl, rfl⟩, rfl⟩
  | atCompose e2 =>
    rw [show e2 = e by simpa [errOf] using he]
    exact ⟨rfl, ⟨[pipeWrite1 jid, pipeWrite2 jid scr, pipeWrite3 jid scr,
      pipeWrite4 jid scr], pipeWrite5 jid scr, rfl, rfl, rfl, rfl, rfl, rfl, rfl⟩, rfl⟩

/-- Witness for the amended claim C2 at a concrete failing stage. -/
theorem task_failure_handler_c2_witness :
    (generate_video_task "j" none (.atScript "boom") .jnull).2 = none ∧
    (∃ pre r, (generate_video_task "j" none (.atScript "boom") .jnull).1
        = pre ++ [r, failWrite r "boom"] ∧
      (failWrite r "boom").status = "failed" ∧
      (failWrite r "boom").message = "Video generation failed" ∧
      (failWrite r "boom").error = some "boom" ∧
      (failWrite r "boom").progress = r.progress ∧
      (failWrite r "boom").script = r.script ∧
      (failWrite r "boom").video_url = r.video_url) ∧
    ((generate_video_task "j" none (.atScript "boom") .jnull).1.filter
      (fun x => x.status == "failed")).length = 1 :=
  task_failure_handler_c2 "j" (.atScript "boom") .jnull "boom" rfl

/-- Lookup in the process-wide job map. -/
def lookupJob : List (String × JobRec) → String → Option JobRec
  | [], _ => none
  | (k, v) :: rest, jid => if k = jid then some v else lookupJob rest jid

/-- Removal of a key from the job map (the delete of the dictionary entry). -/
def removeJob (l : List (String × JobRec)) (jid : String) : List (String × JobRec) :=
  l.filter (fun p => p.1 != jid)

/-- The registry state: the job map and the set of existing workspace
directories, keyed by job id. -/
structure ApiState where
  statuses : List (String × JobRec)
  dirs : List String

/-- The read endpoint: the record, or a not-found error for an unknown id. -/
def get_job_status (jid : String) (st : ApiState) : Except Nat JobRec :=
  match lookupJob st.statuses jid with
  | some r => .ok r
  | none => .error 404

/-- The delete endpoint: not-found for an unknown id; for a known id with an
existing directory, remove the tree and then the record (a tree-removal
failure reports a server error and keeps the record); for a known id without
a directory, remove the record alone. -/
def delete_job (jid : String) (rmtreeOk : Bool) (st : ApiState) :
    Except Nat String × ApiState :=
  match lookupJob st.statuses jid with
  | none => (.error 404, st)
  | some _ =>
    if st.dirs.contains jid then
      if rmtreeOk then
        (.ok ("Job " ++ jid ++ " deleted successfully"),
         ⟨removeJob st.statuses jid, st.dirs.filter (fun d => d != jid)⟩)
      else (.error 500, st)
    else
      (.ok ("Job " ++ jid ++ " deleted (files not found)"),
       ⟨removeJob st.statuses jid, st.dirs⟩)

theorem lookupJob_removeJob (l : List (String × JobRec)) (jid : String) :
    lookupJob (removeJob l jid) jid = none := by
  induction l with
  | nil => rfl
  | cons p rest ih =>
    unfold removeJob at ih ⊢
    rw [List.filter_cons]
    by_cases h : p.1 = jid
    · rw [if_neg (by simp [h])]
      exact ih
    · rw [if_pos (by simp [h])]
      rcases p with ⟨k, v⟩
      unfold lookupJob
      simp only at h
      rw [if_neg h]
      exact ih

theorem contains_filter_ne (l : List String) (jid : String) :
    (l.filter (fun d => d != jid)).contains jid = false := by
  induction l with
  | nil => rfl
  | cons d rest ih =>
    rw [List.filter_cons]
    by_cases h : d = jid
    · rw [if_neg (by simp [h])]
      exact ih
    · rw [if_pos (by simp [h])]
      rw [List.contains_cons]
      simp only [ih, Bool.or_false]
      simp [h, Ne.symm h]

/-- Claim C9: deleting an unknown id reports not-found and changes nothing;
deleting a known id removes the status record and the workspace directory (a
missing directory is not an error: the record is still removed), and a get
for that id afterwards reports not-found. -/
theorem delete_job_c9 (jid : String) (rm : Bool) (st : ApiState) :
    (lookupJob st.statuses jid = none → delete_job jid rm st = (.error 404, st)) ∧
    (∀ r, lookupJob st.statuses jid = some r →
      (st.dirs.contains jid = false ∨ rm = true) →
      lookupJob (delete_job jid rm st).2.statuses jid = none ∧
      (delete_job jid rm st).2.dirs.contains jid = false ∧
      get_job_status jid (delete_job jid rm st).2 = .error 404 ∧
      (∃ msg, (delete_job jid rm st).1 = .ok msg)) := by
  constructor
  · intro h
    unfold delete_job
    rw [h]
  · intro r hr hcase
    have hpost : (delete_job jid rm st).2
        = ⟨removeJob st.statuses jid,
            if st.dirs.contains jid then st.dirs.filter (fun d => d != jid) else st.dirs⟩ ∧
        ∃ msg, (delete_job jid rm st).1 = .ok msg := by
      unfold delete_job
      rw [hr]
      dsimp only
      cases hd : st.dirs.contains jid with
      | false =>
        rw [if_neg (by simp)]
        exact ⟨rfl, _, rfl⟩
      | true =>
        rcases hcase with hcase | hcase
        · rw [hd] at hcase
          exact absurd hcase (by simp)
        · rw [if_pos rfl, hcase]
          rw [if_pos rfl]
          exact ⟨rfl, _, rfl⟩
    refine ⟨?_, ?_, ?_, hpost.2⟩
    · rw [hpost.1]
      exact lookupJob_removeJob st.statuses jid
    · rw [hpost.1]
      dsimp only
      cases hd : st.dirs.contains jid with
      | false =>
        rw [if_neg (by simp)]
        exact hd
      | true =>
        rw [if_pos rfl]
        exact contains_filter_ne st.dirs jid
    · unfold get_job_status
      rw [hpost.1]
      dsimp only
      rw [lookupJob_removeJob st.statuses jid]

/-- Witness for claim C9 on a one-job registry. -/
theorem delete_job_c9_witness :
    delete_job "x" true ⟨[("j", initialStatus "j")], ["j"]⟩
      = (.error 404, ⟨[("j", initialStatus "j")], ["j"]⟩) ∧
    lookupJob (delete_job "j" true ⟨[("j", initialStatus "j")], ["j"]⟩).2.statuses "j" = none ∧
    (delete_job "j" true ⟨[("j", initialStatus "j")], ["j"]⟩).2.dirs.contains "j" = false ∧
    get_job_status "j" (delete_job "j" true ⟨[("j", initialStatus "j")], ["j"]⟩).2 = .error 404 ∧
    (∃ msg, (delete_job "j" true ⟨[("j", initialStatus "j")], ["j"]⟩).1 = .ok msg) := by
  have h1 := (delete_job_c9 "x" true ⟨[("j", initialStatus "j")], ["j"]⟩).1 rfl
  have h2 := (delete_job_c9 "j" true ⟨[("j", initialStatus "j")], ["j"]⟩).2
    (initialStatus "j") (by rfl) (Or.inr rfl)
  exact ⟨h1, h2.1, h2.2.1, h2.2.2.1, h2.2.2.2⟩
